import Mathlib

/-!
# Verification of the Simon game server and client (sivanw123/simon-game-app)

Shallow embedding of the room-lifecycle / round-engine / reconnection code of
the repository.  Pure TypeScript functions become Lean functions; the stateful
handlers become explicit state-passing functions on a store type
(`String → Option Room`) together with the list of events they emit.

The backend `gameService` module (room store and Simon round engine) is not
among the provided sources — only its callers (`authController.ts`,
`gameHandler.ts`) and its integration tests are — so those operations are
modelled from the specification, each marked `Modelled from the spec:` in its
doc comment.  Everything else is translated directly from the sources.
-/

namespace Simon

/-- The fixed 4-symbol alphabet of the game (`Color` in `shared/types`). -/
inductive Color where
  | red
  | blue
  | yellow
  | green
deriving DecidableEq, Repr

/-- Player lifecycle status within a match (spec §3 Data Model). -/
inductive PlayerStatus where
  | playing
  | eliminated
  | spectating
deriving DecidableEq, Repr

/-- Room status (spec §3): waiting / countdown / active / finished. -/
inductive RoomStatus where
  | waiting
  | countdown
  | active
  | finished
deriving DecidableEq, Repr

/-- A player record (spec §3 Data Model; fields as used by the handlers):
identifier, display name, avatar id, host flag, nullable connection binding,
connectivity bit, score, match status. -/
structure Player where
  id : String
  displayName : String
  avatarId : String
  isHost : Bool
  socketId : Option String
  connected : Bool
  score : Nat
  status : PlayerStatus
deriving DecidableEq, Repr

/-- A room (spec §3): 6-character code, status, ordered player list
(insertion order = join order, first entry is host). -/
structure Room where
  gameCode : String
  status : RoomStatus
  players : List Player
deriving DecidableEq, Repr

/-- The room store: in-memory map of game code → Room. -/
def Store : Type := String → Option Room

/- ===========================================================================
   ROUND ENGINE: judging, sequence growth, scoring
   (gameService / Simon engine module is not among the sources; modelled
   from the spec)
   =========================================================================== -/

/-- Modelled from the spec: per-submission judging of the round engine (the
engine module is not among the provided sources).  "A submission is judged
immediately against the current target sequence: correct only if it is
element-wise equal in length and order to the target." -/
def judgeSubmission (submission target : List Color) : Bool :=
  submission = target

/-- Modelled from the spec: sequence generation of the round engine (module
not among the provided sources).  "Round N's target sequence is always round
(N-1)'s sequence with exactly one symbol appended; round 1's sequence has
length 1."  The random choice is abstracted as an oracle `pick` giving the
symbol appended when growing to round `n+1`. -/
def targetSequence (pick : Nat → Color) : Nat → List Color
  | 0 => []
  | n + 1 => targetSequence pick n ++ [pick n]

/-- One submission as received by the round engine: submitting player id and
the submitted color list.  The engine processes submissions strictly in
arrival order, so a round's submissions form a list in that order. -/
structure Submission where
  playerId : String
  sequence : List Color
deriving DecidableEq, Repr

/-- Modelled from the spec: the round-winner computation of the round engine
(module not among the provided sources).  "Among all correct submissions for
the round, the player whose correct submission was received first (by
submission order) is the round winner." -/
def roundWinner (target : List Color) (subs : List Submission) : Option String :=
  (subs.find? fun s => judgeSubmission s.sequence target).map (fun s => s.playerId)

/-- Modelled from the spec: score update of the round engine (module not
among the provided sources).  The round winner "gains one point; all other
correct-but-not-first submitters gain nothing". -/
def updatedScore (target : List Color) (subs : List Submission)
    (scores : String → Nat) (p : String) : Nat :=
  if roundWinner target subs = some p then scores p + 1 else scores p

/- ===========================================================================
   THEOREMS: C1, C2, C3
   =========================================================================== -/

/-- Auxiliary: `List.find?` returns the element at the first index whose
element satisfies the predicate. -/
theorem find?_eq_get_of_first {α : Type} (p : α → Bool) :
    ∀ (l : List α) (i : Fin l.length), p (l.get i) = true →
      (∀ j (hj : j < i.val), p (l.get ⟨j, lt_trans hj i.isLt⟩) = false) →
      l.find? p = some (l.get i)
  | a :: l, ⟨0, _⟩, hi, _ => by
    simp only [List.get] at hi
    simp [List.find?, hi]
  | a :: l, ⟨k + 1, hk⟩, hi, hbefore => by
    have ha : p a = false := hbefore 0 (Nat.succ_pos k)
    have ih := find?_eq_get_of_first p l ⟨k, Nat.lt_of_succ_lt_succ hk⟩ hi
      (fun j hj => hbefore (j + 1) (Nat.succ_lt_succ hj))
    simp [List.find?, ha, ih]

/-- C1: a submission is judged correct iff it agrees with the current target
sequence in length and element-wise (same order); consequently any
wrong-length submission and any proper prefix of the target is judged
incorrect. -/
theorem submission_correct_iff_elementwise_equal
    (sub target : List Color) :
    (judgeSubmission sub target = true ↔
      (sub.length = target.length ∧
        ∀ i (h₁ : i < sub.length) (h₂ : i < target.length),
          sub.get ⟨i, h₁⟩ = target.get ⟨i, h₂⟩)) ∧
    (sub.length ≠ target.length → judgeSubmission sub target = false) ∧
    (sub <+: target → sub ≠ target → judgeSubmission sub target = false) := by
  refine ⟨?_, ?_, ?_⟩
  · rw [judgeSubmission, decide_eq_true_iff]
    exact List.ext_get_iff
  · intro hne
    rw [judgeSubmission, decide_eq_false_iff_not]
    intro h
    exact hne (h ▸ rfl)
  · intro _ hne
    rw [judgeSubmission, decide_eq_false_iff_not]
    exact hne

/-- C2: for every round `n ≥ 2`, round `n`'s target sequence is round
`n-1`'s sequence with exactly one symbol appended; round `n` has length `n`;
round 1 has length 1; and the sequence of any earlier round is a prefix of
every later round's sequence (earlier symbols are never re-randomized). -/
theorem target_sequence_grows_by_one (pick : Nat → Color) (n : Nat)
    (hn : 2 ≤ n) :
    targetSequence pick n = targetSequence pick (n - 1) ++ [pick (n - 1)] ∧
    (targetSequence pick n).length = n ∧
    (targetSequence pick 1).length = 1 ∧
    (∀ m, m ≤ n → targetSequence pick m <+: targetSequence pick n) := by
  have hlen : ∀ k, (targetSequence pick k).length = k := by
    intro k
    induction k with
    | zero => rfl
    | succ k ih => simp [targetSequence, ih]
  have hpre : ∀ a b, a ≤ b → targetSequence pick a <+: targetSequence pick b := by
    intro a b hab
    induction b with
    | zero =>
      have : a = 0 := Nat.le_zero.mp hab
      subst this
      exact List.prefix_rfl
    | succ b ih =>
      rcases Nat.lt_or_ge a (b + 1) with h | h
      · have := ih (Nat.lt_succ_iff.mp h)
        exact this.trans (by simp [targetSequence])
      · have : a = b + 1 := Nat.le_antisymm hab h
        subst this
        exact List.prefix_rfl
  refine ⟨?_, hlen n, hlen 1, fun m hm => hpre m n hm⟩
  obtain ⟨k, rfl⟩ : ∃ k, n = k + 1 :=
    ⟨n - 1, (Nat.succ_pred_eq_of_pos (lt_of_lt_of_le (by norm_num) hn)).symm⟩
  simp [targetSequence]

/-- C2 witness: instantiation at round 3 with a concrete symbol oracle. -/
theorem target_sequence_grows_by_one_witness :
    2 ≤ 3 ∧
      (targetSequence (fun _ => Color.red) 3 =
          targetSequence (fun _ => Color.red) (3 - 1) ++ [Color.red] ∧
        (targetSequence (fun _ => Color.red) 3).length = 3 ∧
        (targetSequence (fun _ => Color.red) 1).length = 1 ∧
        (∀ m, m ≤ 3 →
          targetSequence (fun _ => Color.red) m <+:
            targetSequence (fun _ => Color.red) 3)) :=
  ⟨by norm_num, target_sequence_grows_by_one (fun _ => Color.red) 3 (by norm_num)⟩

/-- C3: if the submission at arrival position `i` is correct and every
earlier-arrived submission is incorrect, then that submitter is the round
winner, their score rises by exactly one, and every other player's score is
unchanged (in particular later correct submitters gain nothing). -/
theorem first_correct_submitter_wins_round
    (target : List Color) (subs : List Submission) (scores : String → Nat)
    (i : Fin subs.length)
    (hcorrect : judgeSubmission (subs.get i).sequence target = true)
    (hfirst : ∀ j (hj : j < i.val),
      judgeSubmission (subs.get ⟨j, lt_trans hj i.isLt⟩).sequence target = false) :
    roundWinner target subs = some (subs.get i).playerId ∧
    updatedScore target subs scores (subs.get i).playerId =
      scores (subs.get i).playerId + 1 ∧
    (∀ q, q ≠ (subs.get i).playerId →
      updatedScore target subs scores q = scores q) := by
  have hwin : roundWinner target subs = some (subs.get i).playerId := by
    rw [roundWinner, find?_eq_get_of_first _ subs i hcorrect hfirst]
    rfl
  refine ⟨hwin, ?_, ?_⟩
  · rw [updatedScore, if_pos hwin]
  · intro q hq
    rw [updatedScore, if_neg]
    rw [hwin]
    simp only [Option.some_inj]
    exact fun h => hq h.symm

/-- C3 witness: a concrete round in which the second-arriving submission is
the first correct one; its submitter wins the point and the others' scores
are untouched. -/
theorem first_correct_submitter_wins_round_witness :
    roundWinner [Color.red] [⟨"alice", [Color.blue]⟩, ⟨"bob", [Color.red]⟩] =
        some "bob" ∧
      updatedScore [Color.red] [⟨"alice", [Color.blue]⟩, ⟨"bob", [Color.red]⟩]
          (fun _ => 0) "bob" = 0 + 1 ∧
      (∀ q, q ≠ "bob" →
        updatedScore [Color.red] [⟨"alice", [Color.blue]⟩, ⟨"bob", [Color.red]⟩]
          (fun _ => 0) q = 0) :=
  first_correct_submitter_wins_round [Color.red]
    [⟨"alice", [Color.blue]⟩, ⟨"bob", [Color.red]⟩] (fun _ => 0)
    ⟨1, by norm_num⟩ (by decide)
    (fun j hj => by
      have hj0 : j = 0 := Nat.lt_one_iff.mp hj
      subst hj0
      rfl)

/- ===========================================================================
   ROOM STORE (gameService is not among the sources; operations modelled
   from the spec §4.1)
   =========================================================================== -/

/-- A join/create profile: the validated display name and avatar id. -/
structure Profile where
  displayName : String
  avatarId : String
deriving DecidableEq, Repr

/-- Errors thrown by `gameService.joinRoom`; the message strings are those
matched by `handleError` in `authController.ts`. -/
inductive JoinError where
  | roomNotFound
  | roomFull
  | gameInProgress
deriving DecidableEq, Repr

/-- Updating one entry of the code → Room map. -/
def Store.set (store : Store) (code : String) (room : Room) : Store :=
  fun c => if c = code then some room else store c

/-- Modelled from the spec: `gameService.createRoom(hostProfile)` (module not
among the sources): creates a Room with a single host Player, status
`waiting`.  Code generation and player-id generation are abstracted as the
parameters `code` and `pid`. -/
def createRoom (store : Store) (code pid : String) (profile : Profile) :
    Store × Room :=
  let host : Player :=
    { id := pid, displayName := profile.displayName,
      avatarId := profile.avatarId, isHost := true, socketId := none,
      connected := true, score := 0, status := .playing }
  let room : Room := { gameCode := code, status := .waiting, players := [host] }
  (store.set code room, room)

/-- Modelled from the spec: `gameService.joinRoom(code, profile)` (module not
among the sources): "fails with RoomNotFound if code unknown; fails with
RoomFull if player count = 4; fails with GameInProgress if status ≠ waiting.
On success appends a non-host Player."  Returns the store after the
operation together with the result. -/
def joinRoom (store : Store) (code pid : String) (profile : Profile) :
    Store × Except JoinError Room :=
  match store code with
  | none => (store, .error .roomNotFound)
  | some room =>
    if room.players.length = 4 then (store, .error .roomFull)
    else if room.status ≠ RoomStatus.waiting then (store, .error .gameInProgress)
    else
      let joiner : Player :=
        { id := pid, displayName := profile.displayName,
          avatarId := profile.avatarId, isHost := false, socketId := none,
          connected := true, score := 0, status := .playing }
      let room' : Room := { room with players := room.players ++ [joiner] }
      (store.set code room', .ok room')

/-- Modelled from the spec: `gameService.removePlayer(code, playerId)`
(module not among the sources): removes the player; if the removed player was
host, promotes the next remaining player in join order; deletes the room when
it becomes empty; returns whether a removal occurred. -/
def removePlayer (store : Store) (code pid : String) : Store × Bool :=
  match store code with
  | none => (store, false)
  | some room =>
    match room.players.find? (fun p => p.id = pid) with
    | none => (store, false)
    | some removed =>
      let remaining := room.players.filter (fun p => ¬ p.id = pid)
      match remaining with
      | [] => ((fun c => if c = code then none else store c), true)
      | next :: rest =>
        let players' :=
          if removed.isHost then { next with isHost := true } :: rest
          else next :: rest
        (store.set code { room with players := players' }, true)

/-- A concrete player, for instantiating the theorems. -/
def mkPlayerEx (pid name avatar : String) (host : Bool) : Player :=
  { id := pid, displayName := name, avatarId := avatar, isHost := host,
    socketId := none, connected := true, score := 0, status := .playing }

/-- A concrete waiting room already holding four players. -/
def fullRoomEx : Room :=
  { gameCode := "ABC123", status := .waiting,
    players := [mkPlayerEx "p1" "Alice" "1" true, mkPlayerEx "p2" "Bob" "2" false,
      mkPlayerEx "p3" "Charlie" "3" false, mkPlayerEx "p4" "Diana" "4" false] }

/-- A concrete store holding only `fullRoomEx`. -/
def fullStoreEx : Store :=
  fun c => if c = "ABC123" then some fullRoomEx else none

/-- The room-count invariant of C4: every room in the store holds between 0
and 4 players (the lower bound is inherent to list lengths). -/
def BoundedRooms (store : Store) : Prop :=
  ∀ c r, store c = some r → r.players.length ≤ 4

/- ===========================================================================
   THEOREM: C4
   =========================================================================== -/

/-- Writing a ≤4-player room into a bounded store keeps it bounded. -/
theorem boundedRooms_set {store : Store} {code : String} {room : Room}
    (hb : BoundedRooms store) (hr : room.players.length ≤ 4) :
    BoundedRooms (Store.set store code room) := by
  intro c r' hc
  rw [Store.set] at hc
  by_cases hcc : c = code
  · rw [if_pos hcc] at hc
    exact (Option.some.inj hc) ▸ hr
  · rw [if_neg hcc] at hc
    exact hb c r' hc

/-- Deleting a room from a bounded store keeps it bounded. -/
theorem boundedRooms_erase {store : Store} {code : String}
    (hb : BoundedRooms store) :
    BoundedRooms (fun c => if c = code then none else store c) := by
  intro c r' hc
  by_cases hcc : c = code
  · simp [hcc] at hc
  · simp only [if_neg hcc] at hc
    exact hb c r' hc

/-- C4: joining a full room fails with RoomFull and joining a non-waiting
room fails with GameInProgress, in both cases leaving the store — hence the
room's player list — unchanged; and all three room-store operations preserve
the 0–4 player-count bound. -/
theorem join_full_or_started_fails_count_bounded
    (store : Store) (code pid : String) (profile : Profile) (room : Room)
    (hroom : store code = some room) :
    (room.players.length = 4 →
      joinRoom store code pid profile = (store, .error .roomFull)) ∧
    (room.players.length ≠ 4 → room.status ≠ .waiting →
      joinRoom store code pid profile = (store, .error .gameInProgress)) ∧
    (BoundedRooms store →
      BoundedRooms (joinRoom store code pid profile).1 ∧
      BoundedRooms (createRoom store code pid profile).1 ∧
      BoundedRooms (removePlayer store code pid).1) := by
  refine ⟨?_, ?_, ?_⟩
  · intro hfull
    simp [joinRoom, hroom, hfull]
  · intro hnotfull hstatus
    simp [joinRoom, hroom, hnotfull, hstatus]
  · intro hb
    refine ⟨?_, ?_, ?_⟩
    · rcases h : store code with _ | r
      · simp only [joinRoom, h]
        exact hb
      · simp only [joinRoom, h]
        by_cases h4 : r.players.length = 4
        · rw [if_pos h4]
          exact hb
        · rw [if_neg h4]
          by_cases hw : r.status ≠ RoomStatus.waiting
          · rw [if_pos hw]
            exact hb
          · rw [if_neg hw]
            refine boundedRooms_set hb ?_
            have := hb code r h
            simp only [List.length_append, List.length_cons, List.length_nil]
            omega
    · refine boundedRooms_set hb ?_
      simp [createRoom]
    · rcases h : store code with _ | r
      · simp only [removePlayer, h]
        exact hb
      · simp only [removePlayer, h]
        rcases hf : r.players.find? (fun p => p.id = pid) with _ | removed
        · rw [hf]
          exact hb
        · rw [hf]
          rcases hrem : r.players.filter (fun p => ¬ p.id = pid) with _ | ⟨next, rest⟩
          · rw [hrem]
            exact boundedRooms_erase hb
          · rw [hrem]
            refine boundedRooms_set hb ?_
            have hlen : (r.players.filter (fun p => ¬ p.id = pid)).length ≤
                r.players.length := List.length_filter_le _ _
            rw [hrem] at hlen
            have hr4 := hb code r h
            by_cases hh : removed.isHost = true
            · rw [if_pos hh]
              simp only [List.length_cons] at hlen ⊢
              omega
            · rw [if_neg hh]
              simp only [List.length_cons] at hlen ⊢
              omega

/-- C4 witness: a concrete full waiting room rejects a fifth joiner with
RoomFull and the store is untouched; the bound is preserved by the
operations on a concrete bounded store. -/
theorem join_full_or_started_fails_count_bounded_witness :
    fullStoreEx "ABC123" = some fullRoomEx ∧
      joinRoom fullStoreEx "ABC123" "p5" ⟨"Eve", "5"⟩ =
        (fullStoreEx, .error .roomFull) :=
  ⟨rfl,
    (join_full_or_started_fails_count_bounded fullStoreEx "ABC123" "p5"
      ⟨"Eve", "5"⟩ fullRoomEx rfl).1 (by decide)⟩

/- ===========================================================================
   INPUT VALIDATION (src/backend/utils/validation.ts) and the auth
   controller (src/backend/controllers/authController.ts)
   =========================================================================== -/

/-- Modelled from the spec: `PLATFORM_CONSTANTS.MIN_DISPLAY_NAME_LENGTH`
(shared types module not among the sources); the value 3 is fixed by the
repository's auth-controller tests ("AB" — less than 3 chars — is
rejected) and the entry page's `minLength={3}`. -/
def MIN_DISPLAY_NAME_LENGTH : Nat := 3

/-- Modelled from the spec: `PLATFORM_CONSTANTS.MAX_DISPLAY_NAME_LENGTH`;
the value 12 is fixed by the tests ("ThisNameIsTooLong" — more than 12
chars — is rejected) and the entry page's `maxLength={12}`. -/
def MAX_DISPLAY_NAME_LENGTH : Nat := 12

/-- Modelled from the spec: `PLATFORM_CONSTANTS.VALID_AVATAR_IDS`; the entry
page offers the avatar ids "1"–"8" and the tests accept "1"–"5" and
reject "99". -/
def VALID_AVATAR_IDS : List String := ["1", "2", "3", "4", "5", "6", "7", "8"]

/-- Modelled from the spec: `PLATFORM_CONSTANTS.GAME_CODE_LENGTH`; the value
6 comes from the spec ("6-character code") and the tests
(`/^[A-Z0-9]{6}$/`). -/
def GAME_CODE_LENGTH : Nat := 6

/-- Character class of the display-name regex `/^[a-zA-Z0-9\s-]+$/` in
`validation.ts`: letters, digits, whitespace, and hyphens. -/
def displayNameChar (c : Char) : Bool :=
  c.isAlpha || c.isDigit || c.isWhitespace || c = '-'

/-- `displayNameSchema`: min/max length plus the character-class regex
(`+` in the regex also requires a non-empty string, subsumed by `min`). -/
def validDisplayName (s : String) : Bool :=
  decide (MIN_DISPLAY_NAME_LENGTH ≤ s.length) &&
    decide (s.length ≤ MAX_DISPLAY_NAME_LENGTH) &&
    s.toList.all displayNameChar

/-- `avatarIdSchema`: membership in the valid avatar-id set. -/
def validAvatarId (s : String) : Bool :=
  VALID_AVATAR_IDS.contains s

/-- `gameCodeSchema`: exactly `GAME_CODE_LENGTH` characters matching
`/^[A-Za-z0-9]+$/`. -/
def validGameCode (s : String) : Bool :=
  decide (s.length = GAME_CODE_LENGTH) &&
    s.toList.all (fun c => c.isAlpha || c.isDigit)

/-- Request body of POST /api/auth/create-session; `none` models a missing
field (Zod rejects those too). -/
structure CreateSessionBody where
  displayName : Option String
  avatarId : Option String
deriving DecidableEq, Repr

/-- Request body of POST /api/auth/join-game. -/
structure JoinGameBody where
  displayName : Option String
  avatarId : Option String
  gameCode : Option String
deriving DecidableEq, Repr

/-- `validateCreateSession`: Zod parse of `createSessionSchema`; `none`
models a thrown ZodError. -/
def validateCreateSession (b : CreateSessionBody) : Option Profile :=
  match b.displayName, b.avatarId with
  | some dn, some av =>
    if validDisplayName dn && validAvatarId av then some ⟨dn, av⟩ else none
  | _, _ => none

/-- `validateJoinGame`: Zod parse of `joinGameSchema`. -/
def validateJoinGame (b : JoinGameBody) : Option (Profile × String) :=
  match b.displayName, b.avatarId, b.gameCode with
  | some dn, some av, some gc =>
    if validDisplayName dn && validAvatarId av && validGameCode gc then
      some (⟨dn, av⟩, gc)
    else none
  | _, _, _ => none

/-- Modelled from the spec: `normalizeGameCode` (utils/gameCode.ts not among
the sources); per the controller's comment it removes dashes and
uppercases, and the tests confirm lowercase codes are accepted. -/
def normalizeGameCode (s : String) : String :=
  String.mk ((s.toList.filter (fun c => c ≠ '-')).map Char.toUpper)

/-- HTTP outcome of an auth-controller request, with the status code and
error message of the source. -/
inductive HttpResponse where
  | created (playerId gameCode : String)
  | okJoined (playerId : String)
  | badRequest (error : String)
  | notFound (error : String)
deriving DecidableEq, Repr

/-- Error discriminator reaching `handleError` in `authController.ts`. -/
inductive ControllerError where
  | zodValidation
  | game (e : JoinError)
deriving DecidableEq, Repr

/-- `handleError` (authController.ts lines 218-251): ZodError → 400
"Validation failed"; 'Room not found' → 404; 'Room is full' / 'Game already
in progress' → 400. -/
def handleError : ControllerError → HttpResponse
  | .zodValidation => .badRequest "Validation failed"
  | .game .roomNotFound => .notFound "Room not found"
  | .game .roomFull => .badRequest "Room is full"
  | .game .gameInProgress => .badRequest "Game already in progress"

/-- The create-session handler (authController.ts lines 37-74): validate,
then create the room (code/player-id generation abstracted as parameters);
the created room's first player is the host, whose id is `newPid`. -/
def createSessionHandler (store : Store) (freshCode newPid : String)
    (body : CreateSessionBody) : Store × HttpResponse :=
  match validateCreateSession body with
  | none => (store, handleError .zodValidation)
  | some profile =>
    let res := createRoom store freshCode newPid profile
    (res.1, .created newPid res.2.gameCode)

/-- The join-game handler (authController.ts lines 82-121): validate,
normalize the code, join, map game errors through `handleError`. -/
def joinGameHandler (store : Store) (newPid : String) (body : JoinGameBody) :
    Store × HttpResponse :=
  match validateJoinGame body with
  | none => (store, handleError .zodValidation)
  | some (profile, rawCode) =>
    let gameCode := normalizeGameCode rawCode
    match joinRoom store gameCode newPid profile with
    | (store', .ok _) => (store', .okJoined newPid)
    | (store', .error e) => (store', handleError (.game e))

/-- An empty room store. -/
def emptyStore : Store := fun _ => none

/- ===========================================================================
   THEOREM: C8
   =========================================================================== -/

/-- C8: any create-session or join-game request that fails validation is
answered 400 "Validation failed" with the room store untouched (no room
created, no player appended); and a display name violating the
length/character rules, an avatar id outside the valid set, or a game code
that is not exactly 6 alphanumeric characters each make validation fail. -/
theorem malformed_request_rejected_before_state
    (store : Store) (freshCode newPid : String) :
    (∀ b, validateCreateSession b = none →
      createSessionHandler store freshCode newPid b =
        (store, .badRequest "Validation failed")) ∧
    (∀ b, validateJoinGame b = none →
      joinGameHandler store newPid b =
        (store, .badRequest "Validation failed")) ∧
    (∀ dn av, validDisplayName dn = false ∨ validAvatarId av = false →
      validateCreateSession ⟨some dn, some av⟩ = none) ∧
    (∀ dn av gc,
      validDisplayName dn = false ∨ validAvatarId av = false ∨
        validGameCode gc = false →
      validateJoinGame ⟨some dn, some av, some gc⟩ = none) := by
  refine ⟨?_, ?_, ?_, ?_⟩
  · intro b hb
    simp only [createSessionHandler, hb]
    rfl
  · intro b hb
    simp only [joinGameHandler, hb]
    rfl
  · intro dn av h
    rcases h with h | h <;> simp [validateCreateSession, h]
  · intro dn av gc h
    rcases h with h | h | h <;> simp [validateJoinGame, h]

/-- C8 witness: the concrete malformed body from the tests ("AB" is shorter
than 3 characters) is rejected with the store unchanged. -/
theorem malformed_request_rejected_before_state_witness :
    validateCreateSession ⟨some "AB", some "1"⟩ = none ∧
      createSessionHandler emptyStore "ABC123" "p1" ⟨some "AB", some "1"⟩ =
        (emptyStore, .badRequest "Validation failed") := by
  have h : validateCreateSession ⟨some "AB", some "1"⟩ = none :=
    (malformed_request_rejected_before_state emptyStore "ABC123" "p1").2.2.1
      "AB" "1" (Or.inl (by decide))
  exact ⟨h,
    (malformed_request_rejected_before_state emptyStore "ABC123" "p1").1 _ h⟩

/- ===========================================================================
   START-GAME AND COUNTDOWN (src/backend/websocket/gameHandler.ts)
   =========================================================================== -/

/-- A server→client event of the WebSocket layer, with the payloads of the
source's `emit` calls. -/
inductive WsEvent where
  | errorMsg (message : String)
  | playerReconnected (playerId displayName : String)
  | roomState (room : Room)
  | countdown (count : Int)
  | gameStarted
deriving DecidableEq, Repr

/-- Where an event is delivered: `socket.emit` (requester only),
`socket.to(code).emit` (every room member except the requester), or
`io.to(code).emit` (every room member). -/
inductive Emission where
  | toRequester (e : WsEvent)
  | toRoomOthers (code : String) (e : WsEvent)
  | toRoomAll (code : String) (e : WsEvent)
deriving DecidableEq, Repr

/-- Modelled from the spec: `gameService.updateRoomStatus(code, status)`
(module not among the sources): sets the room's status. -/
def updateRoomStatus (store : Store) (code : String) (st : RoomStatus) :
    Store :=
  fun c =>
    if c = code then (store c).map (fun r => { r with status := st })
    else store c

/-- The interval handle and counter of `startCountdown`
(gameHandler.ts lines 267-289): `count` starts at 3 and is decremented after
each tick; `running` is cleared by `clearInterval` on the 0 tick. -/
structure CountdownTimer where
  count : Int
  running : Bool
deriving DecidableEq, Repr

/-- `startCountdown` (gameHandler.ts lines 267-289), immediate part: set the
room status to countdown and arm a 1-second interval with `count = 3`. -/
def startCountdown (store : Store) (code : String) : Store × CountdownTimer :=
  (updateRoomStatus store code .countdown, { count := 3, running := true })

/-- One firing of the 1000 ms interval of `startCountdown`: emit
`countdown {count}` to the room; if `count` was 0, clear the interval, set
the room status to active and emit `game_started`; finally decrement
`count`. -/
def countdownStep (code : String) (st : Store × CountdownTimer) :
    (Store × CountdownTimer) × List Emission :=
  if ¬ st.2.running then (st, [])
  else
    let emitted := [Emission.toRoomAll code (.countdown st.2.count)]
    if st.2.count = 0 then
      ((updateRoomStatus st.1 code .active,
          { count := st.2.count - 1, running := false }),
        emitted ++ [Emission.toRoomAll code .gameStarted])
    else ((st.1, { count := st.2.count - 1, running := st.2.running }), emitted)

/-- `n` consecutive firings of the countdown interval, collecting emissions
in order. -/
def countdownRun (code : String) : Nat → Store × CountdownTimer →
    (Store × CountdownTimer) × List Emission
  | 0, st => (st, [])
  | n + 1, st =>
    let r := countdownStep code st
    let r' := countdownRun code n r.1
    (r'.1, r.2 ++ r'.2)

/-- The host check of the start_game handler: `player?.isHost` where
`player = room.players.find(p => p.id === playerId)` (an absent player is
falsy, hence not host). -/
def isHostRequester (room : Room) (pid : String) : Bool :=
  match room.players.find? (fun p => p.id = pid) with
  | some p => p.isHost
  | none => false

/-- The start_game handler (gameHandler.ts lines 213-245): look up the room,
check the requester is host, re-check `status === waiting`, then start the
countdown.  Result: updated store, the armed countdown timer if any, and the
emissions of the handler itself. -/
def startGameHandler (store : Store) (code pid : String) :
    (Store × Option CountdownTimer) × List Emission :=
  match store code with
  | none => ((store, none), [.toRequester (.errorMsg "Room not found")])
  | some room =>
    if ¬ isHostRequester room pid then
      ((store, none), [.toRequester (.errorMsg "Only host can start the game")])
    else if room.status ≠ RoomStatus.waiting then
      ((store, none), [.toRequester (.errorMsg "Game already started")])
    else
      let r := startCountdown store code
      ((r.1, some r.2), [])

/- ===========================================================================
   THEOREMS: C5, C7
   =========================================================================== -/

/-- C5: a start_game request from a non-host, or on a room whose status is
not waiting (in particular one whose countdown is already running), is
rejected: the only emission is a single error event to the requester
(NotHost / AlreadyStarted message), no room-wide broadcast happens, the
store is unchanged and no countdown is armed. -/
theorem start_game_rejected_for_nonhost_or_nonwaiting
    (store : Store) (code pid : String) (room : Room)
    (hroom : store code = some room)
    (hrej : isHostRequester room pid = false ∨
      room.status ≠ RoomStatus.waiting) :
    (startGameHandler store code pid).1 = (store, none) ∧
    (∃ msg, (startGameHandler store code pid).2 =
        [.toRequester (.errorMsg msg)] ∧
      (msg = "Only host can start the game" ∨ msg = "Game already started")) ∧
    (isHostRequester room pid = false →
      (startGameHandler store code pid).2 =
        [.toRequester (.errorMsg "Only host can start the game")]) ∧
    (isHostRequester room pid = true → room.status ≠ RoomStatus.waiting →
      (startGameHandler store code pid).2 =
        [.toRequester (.errorMsg "Game already started")]) := by
  by_cases hh : isHostRequester room pid = true
  · have hw : room.status ≠ RoomStatus.waiting := by
      rcases hrej with h | h
      · rw [hh] at h
        exact absurd h (by simp)
      · exact h
    refine ⟨?_, ⟨"Game already started", ?_, Or.inr rfl⟩, ?_, fun _ _ => ?_⟩ <;>
      simp [startGameHandler, hroom, hh, hw]
  · have hh' : isHostRequester room pid = false := by
      simpa using hh
    refine ⟨?_, ⟨"Only host can start the game", ?_, Or.inl rfl⟩,
        fun _ => ?_, fun h _ => absurd h hh⟩ <;>
      simp [startGameHandler, hroom, hh']

/-- C5 witness: the non-host player "p2" of a concrete waiting room is
rejected with the NotHost error only, nothing broadcast, store unchanged. -/
theorem start_game_rejected_for_nonhost_or_nonwaiting_witness :
    fullStoreEx "ABC123" = some fullRoomEx ∧
      (startGameHandler fullStoreEx "ABC123" "p2").1 = (fullStoreEx, none) ∧
      (startGameHandler fullStoreEx "ABC123" "p2").2 =
        [.toRequester (.errorMsg "Only host can start the game")] :=
  ⟨rfl,
    (start_game_rejected_for_nonhost_or_nonwaiting fullStoreEx "ABC123" "p2"
      fullRoomEx rfl (Or.inl (by decide))).1,
    (start_game_rejected_for_nonhost_or_nonwaiting fullStoreEx "ABC123" "p2"
      fullRoomEx rfl (Or.inl (by decide))).2.2.1 (by decide)⟩

/-- C7: a host's start_game on a waiting room arms the countdown with no
immediate broadcast; `startCountdown` sets the room status to countdown, the
four interval firings (one per second) emit the ticks 3, 2, 1, 0 in order to
the whole room, the firing that emits 0 also sets the status to active,
stops the interval and broadcasts game_started, and a further firing emits
nothing. -/
theorem countdown_ticks_3_2_1_0_then_active
    (store : Store) (code pid : String) (room : Room)
    (hroom : store code = some room) :
    (isHostRequester room pid = true → room.status = RoomStatus.waiting →
      startGameHandler store code pid =
        (((startCountdown store code).1, some (startCountdown store code).2),
          [])) ∧
    (startCountdown store code).1 code =
      some { room with status := .countdown } ∧
    (countdownRun code 4 (startCountdown store code)).2 =
      [.toRoomAll code (.countdown 3), .toRoomAll code (.countdown 2),
        .toRoomAll code (.countdown 1), .toRoomAll code (.countdown 0),
        .toRoomAll code .gameStarted] ∧
    (countdownRun code 4 (startCountdown store code)).1.1 code =
      some { room with status := .active } ∧
    (countdownRun code 4 (startCountdown store code)).1.2.running = false ∧
    (countdownStep code (countdownRun code 4 (startCountdown store code)).1).2 =
      [] := by
  refine ⟨?_, ?_, ?_, ?_, ?_, ?_⟩
  · intro hh hw
    simp [startGameHandler, hroom, hh, hw]
  · simp [startCountdown, updateRoomStatus, hroom]
  · simp [countdownRun, countdownStep, startCountdown]
  · simp [countdownRun, countdownStep, startCountdown, updateRoomStatus, hroom]
  · simp [countdownRun, countdownStep, startCountdown]
  · simp [countdownRun, countdownStep, startCountdown]

/-- C7 witness: the host "p1" of the concrete waiting room starts the game;
the ticks and final state are as stated. -/
theorem countdown_ticks_3_2_1_0_then_active_witness :
    startGameHandler fullStoreEx "ABC123" "p1" =
        (((startCountdown fullStoreEx "ABC123").1,
            some (startCountdown fullStoreEx "ABC123").2), []) ∧
      (countdownRun "ABC123" 4 (startCountdown fullStoreEx "ABC123")).2 =
        [.toRoomAll "ABC123" (.countdown 3), .toRoomAll "ABC123" (.countdown 2),
          .toRoomAll "ABC123" (.countdown 1), .toRoomAll "ABC123" (.countdown 0),
          .toRoomAll "ABC123" .gameStarted] :=
  ⟨(countdown_ticks_3_2_1_0_then_active fullStoreEx "ABC123" "p1" fullRoomEx
      rfl).1 (by decide) (by decide),
    (countdown_ticks_3_2_1_0_then_active fullStoreEx "ABC123" "p1" fullRoomEx
      rfl).2.2.1⟩

/- ===========================================================================
   AUTO-RECONNECTION (src/backend/websocket/gameHandler.ts, lines 65-119)
   =========================================================================== -/

/-- The session-token payload (spec §3: carries playerId + gameCode +
displayName; token issuance/verification is an external collaborator). -/
structure TokenPayload where
  playerId : String
  gameCode : String
  displayName : String
deriving DecidableEq, Repr

/-- The per-socket session fields (`SocketWithSession`) plus the set of
socket.io rooms the socket has joined. -/
structure SocketState where
  playerId : Option String
  gameCode : Option String
  displayName : Option String
  joinedRooms : List String
deriving DecidableEq, Repr

/-- Result of running `handleAutoReconnect`: the room store, the
`disconnectTimeouts` registry (keys are (gameCode, playerId), standing for
the source's `` `${gameCode}:${playerId}` `` strings), the socket session,
and the emissions in order. -/
structure ReconnectOutcome where
  store : Store
  timeouts : List (String × String)
  socket : SocketState
  emissions : List Emission

/-- Modelled from the spec: `gameService.updateSocketId(code, pid, sid)`
(module not among the sources): rebinds the player's connection reference
and marks them connected; no other player field changes (spec §4.2: the
reconnecting player keeps seat, score and turn). -/
def updateSocketId (store : Store) (code pid sid : String) : Store :=
  fun c =>
    if c = code then
      (store c).map (fun r =>
        { r with players := r.players.map (fun p =>
            if p.id = pid then { p with socketId := some sid, connected := true }
            else p) })
    else store c

/-- `handleAutoReconnect` (gameHandler.ts lines 65-119).  Cookie parsing
(`cookie.parse(...).session`) and token verification (`verifyToken`,
an external collaborator per spec §1) are oracles `sessionCookie` and
`verify`.  Since the service mutates the room in place, the final
`socket.emit('room_state', room)` observes the players updated by
`updateSocketId`. -/
def handleAutoReconnect (verify : String → Option TokenPayload)
    (sessionCookie : String → Option String) (cookieHeader : Option String)
    (socketId : String) (sock : SocketState) (store : Store)
    (timeouts : List (String × String)) : ReconnectOutcome :=
  match cookieHeader with
  | none => ⟨store, timeouts, sock, []⟩
  | some header =>
    match sessionCookie header with
    | none => ⟨store, timeouts, sock, []⟩
    | some token =>
      match verify token with
      | none => ⟨store, timeouts, sock, []⟩
      | some payload =>
        match store payload.gameCode with
        | none => ⟨store, timeouts, sock, []⟩
        | some room =>
          match room.players.find? (fun p => p.id = payload.playerId) with
          | none => ⟨store, timeouts, sock, []⟩
          | some _ =>
            let store' :=
              updateSocketId store payload.gameCode payload.playerId socketId
            let sock' : SocketState :=
              { playerId := some payload.playerId,
                gameCode := some payload.gameCode,
                displayName := some payload.displayName,
                joinedRooms := payload.gameCode :: sock.joinedRooms }
            let timeouts' := timeouts.filter
              (fun k => ¬ k = (payload.gameCode, payload.playerId))
            let roomAfter : Room :=
              { room with players := room.players.map (fun p =>
                  if p.id = payload.playerId then
                    { p with socketId := some socketId, connected := true }
                  else p) }
            ⟨store', timeouts', sock',
              [.toRoomOthers payload.gameCode
                  (.playerReconnected payload.playerId payload.displayName),
                .toRequester (.roomState roomAfter)]⟩

/-- The early-return condition of `handleAutoReconnect`: no cookie header,
no session cookie, invalid token, unknown room, or player no longer in the
room. -/
def reconnectRejected (verify : String → Option TokenPayload)
    (sessionCookie : String → Option String) (store : Store)
    (cookieHeader : Option String) : Bool :=
  match cookieHeader with
  | none => true
  | some header =>
    match sessionCookie header with
    | none => true
    | some token =>
      match verify token with
      | none => true
      | some payload =>
        match store payload.gameCode with
        | none => true
        | some room =>
          (room.players.find? (fun p => p.id = payload.playerId)).isNone

/-- A concrete player with a disconnected binding, positive score and the
host flag, for instantiating the reconnect theorems. -/
def reconnectPlayerEx : Player :=
  { id := "p1", displayName := "Alice", avatarId := "1", isHost := true,
    socketId := none, connected := false, score := 2, status := .playing }

/-- A concrete active room holding `reconnectPlayerEx`. -/
def reconnectRoomEx : Room :=
  { gameCode := "ABC123", status := .active, players := [reconnectPlayerEx] }

/-- A concrete store holding only `reconnectRoomEx`. -/
def reconnectStoreEx : Store :=
  fun c => if c = "ABC123" then some reconnectRoomEx else none

/-- A concrete token-verification oracle accepting only "tok". -/
def reconnectVerifyEx : String → Option TokenPayload :=
  fun t => if t = "tok" then some ⟨"p1", "ABC123", "Alice"⟩ else none

/-- A concrete cookie-parsing oracle for the header "session=tok". -/
def reconnectCookieEx : String → Option String :=
  fun h => if h = "session=tok" then some "tok" else none

/- ===========================================================================
   THEOREMS: C6, C9
   =========================================================================== -/

/-- `List.find?` commutes with mapping a function that does not change the
predicate's verdict. -/
theorem find?_map_of_pred_invariant {α : Type} (f : α → α) (p : α → Bool)
    (hp : ∀ a, p (f a) = p a) :
    ∀ l : List α, (l.map f).find? p = (l.find? p).map f
  | [] => rfl
  | a :: l => by
    rcases h : p a with _ | _
    · simp [List.find?, hp a, h, find?_map_of_pred_invariant f p hp l]
    · simp [List.find?, hp a, h]

/-- C6: a reconnect attempt whose token verifies and matches an existing
room and a player still in it cancels the pending disconnect timer for that
(gameCode, playerId) while keeping all other timers, rebinds the player to
the new connection as connected while preserving their score, status and
host flag, notifies the other room members and re-delivers the updated room
state to the recovered connection, and binds the session to the socket. -/
theorem reconnect_rebinds_and_preserves_player
    (verify : String → Option TokenPayload)
    (sessionCookie : String → Option String) (header token socketId : String)
    (sock : SocketState) (store : Store) (timeouts : List (String × String))
    (payload : TokenPayload) (room : Room) (player : Player)
    (hverify : verify token = some payload)
    (hcookie : sessionCookie header = some token)
    (hroom : store payload.gameCode = some room)
    (hplayer : room.players.find? (fun p => p.id = payload.playerId) =
      some player) :
    (handleAutoReconnect verify sessionCookie (some header) socketId sock
          store timeouts).timeouts =
        timeouts.filter (fun k => ¬ k = (payload.gameCode, payload.playerId)) ∧
    (payload.gameCode, payload.playerId) ∉
      (handleAutoReconnect verify sessionCookie (some header) socketId sock
          store timeouts).timeouts ∧
    (∃ roomAfter,
      (handleAutoReconnect verify sessionCookie (some header) socketId sock
          store timeouts).store payload.gameCode = some roomAfter ∧
      roomAfter.players.find? (fun p => p.id = payload.playerId) =
        some { player with socketId := some socketId, connected := true } ∧
      (handleAutoReconnect verify sessionCookie (some header) socketId sock
          store timeouts).emissions =
        [.toRoomOthers payload.gameCode
            (.playerReconnected payload.playerId payload.displayName),
          .toRequester (.roomState roomAfter)]) ∧
    (handleAutoReconnect verify sessionCookie (some header) socketId sock
        store timeouts).socket =
      ⟨some payload.playerId, some payload.gameCode, some payload.displayName,
        payload.gameCode :: sock.joinedRooms⟩ := by
  have hpid : player.id = payload.playerId := by
    have := List.find?_some hplayer
    simpa using this
  simp only [handleAutoReconnect, hcookie, hverify, hroom, hplayer]
  refine ⟨trivial, ?_, ?_, trivial⟩
  · simp
  · refine ⟨_, ?_, ?_, rfl⟩
    · simp [updateSocketId, hroom]
    · rw [find?_map_of_pred_invariant
        (fun p => if p.id = payload.playerId then
          { p with socketId := some socketId, connected := true }
        else p)
        (fun p => p.id = payload.playerId)
        (fun a => by by_cases h : a.id = payload.playerId <;> simp [h])
        room.players]
      rw [hplayer, Option.map_some']
      rw [if_pos hpid]

/-- C6 witness: a concrete reconnect with a valid token on a one-player
room with a pending timer: the timer list drops exactly that key, the
player keeps score, status and host flag while gaining the new socket id,
and both notifications are emitted. -/
theorem reconnect_rebinds_and_preserves_player_witness :
    reconnectVerifyEx "tok" = some ⟨"p1", "ABC123", "Alice"⟩ ∧
      reconnectCookieEx "session=tok" = some "tok" ∧
      reconnectStoreEx "ABC123" = some reconnectRoomEx ∧
      reconnectRoomEx.players.find? (fun p => p.id = "p1") =
        some reconnectPlayerEx ∧
      ((handleAutoReconnect reconnectVerifyEx reconnectCookieEx
            (some "session=tok") "sock2" ⟨none, none, none, []⟩
            reconnectStoreEx [("ABC123", "p1")]).timeouts =
          [("ABC123", "p1")].filter (fun k => ¬ k = ("ABC123", "p1")) ∧
        ("ABC123", "p1") ∉
          (handleAutoReconnect reconnectVerifyEx reconnectCookieEx
            (some "session=tok") "sock2" ⟨none, none, none, []⟩
            reconnectStoreEx [("ABC123", "p1")]).timeouts) := by
  have h := reconnect_rebinds_and_preserves_player reconnectVerifyEx
    reconnectCookieEx "session=tok" "tok" "sock2" ⟨none, none, none, []⟩
    reconnectStoreEx [("ABC123", "p1")] ⟨"p1", "ABC123", "Alice"⟩
    reconnectRoomEx reconnectPlayerEx rfl rfl rfl (by decide)
  exact ⟨rfl, rfl, rfl, by decide, h.1, h.2.1⟩

/-- C9: a reconnect attempt failing any of the guards (no cookie, missing
or unverifiable token, unknown room, playerId not in the room) leaves the
store, the disconnect-timer registry and the socket session untouched and
emits nothing. -/
theorem failed_reconnect_leaves_state_untouched
    (verify : String → Option TokenPayload)
    (sessionCookie : String → Option String) (cookieHeader : Option String)
    (socketId : String) (sock : SocketState) (store : Store)
    (timeouts : List (String × String))
    (hrej : reconnectRejected verify sessionCookie store cookieHeader = true) :
    handleAutoReconnect verify sessionCookie cookieHeader socketId sock store
      timeouts = ⟨store, timeouts, sock, []⟩ := by
  rcases cookieHeader with _ | header
  · rfl
  · rcases hc : sessionCookie header with _ | token
    · simp only [handleAutoReconnect, hc]
    · rcases hv : verify token with _ | payload
      · simp only [handleAutoReconnect, hc, hv]
      · rcases hr : store payload.gameCode with _ | room
        · simp only [handleAutoReconnect, hc, hv, hr]
        · rcases hp : room.players.find? (fun p => p.id = payload.playerId)
            with _ | player
          · simp only [handleAutoReconnect, hc, hv, hr, hp]
          · exfalso
            simp only [reconnectRejected, hc, hv, hr, hp] at hrej
            exact absurd hrej (by simp)

/-- C9 witness: a connection with no cookie header at all changes nothing
and emits nothing. -/
theorem failed_reconnect_leaves_state_untouched_witness :
    reconnectRejected reconnectVerifyEx reconnectCookieEx reconnectStoreEx
        none = true ∧
      handleAutoReconnect reconnectVerifyEx reconnectCookieEx none "sock2"
          ⟨none, none, none, []⟩ reconnectStoreEx [("ABC123", "p1")] =
        ⟨reconnectStoreEx, [("ABC123", "p1")], ⟨none, none, none, []⟩, []⟩ :=
  ⟨rfl,
    failed_reconnect_leaves_state_untouched reconnectVerifyEx
      reconnectCookieEx none "sock2" ⟨none, none, none, []⟩ reconnectStoreEx
      [("ABC123", "p1")] rfl⟩

/- ===========================================================================
   CLIENT-SIDE SIMON STORE (frontend zustand store module)
   =========================================================================== -/

/-- The game-logic fields of the client-side Simon store.  The timer,
sound and message-string fields of the store are presentational (spec §1
puts rendering/audio out of scope) and are not modelled; no modelled field
depends on them. -/
structure SimonStore where
  isShowingSequence : Bool
  currentSequence : List Color
  currentRound : Nat
  isInputPhase : Bool
  playerSequence : List Color
  canSubmit : Bool
  isGameActive : Bool
deriving DecidableEq, Repr

/-- The store's initial state. -/
def initialSimonStore : SimonStore :=
  { isShowingSequence := false, currentSequence := [], currentRound := 1,
    isInputPhase := false, playerSequence := [], canSubmit := false,
    isGameActive := false }

/-- An event reaching the client store: the socket listeners registered in
`initializeListeners` plus the player-driven actions.  `submit` models a
call to `submitSequence` (the UI submit button's handler). -/
inductive ClientEvent where
  | showSequence (round : Nat) (sequence : List Color)
  | sequenceComplete
  | inputPhase
  | resultEvent (isCorrect : Bool)
  | timeoutEvent
  | roundResult
  | gameFinished
  | addColor (c : Color)
  | submit
  | clearSequence
  | resetGame
deriving DecidableEq, Repr

/-- One transition of the client store, returning the next state and the
sequence emitted over the socket, if any (only `submitSequence` emits;
with no socket or `canSubmit === false` it returns without emitting or
changing state). -/
def simonStep (s : SimonStore) : ClientEvent → SimonStore × Option (List Color)
  | .showSequence round sequence =>
    ({ s with currentRound := round,
              currentSequence := sequence,
              isShowingSequence := true,
              isGameActive := true }, none)
  | .sequenceComplete => ({ s with isShowingSequence := false }, none)
  | .inputPhase =>
    ({ s with isInputPhase := true,
              playerSequence := [],
              canSubmit := false }, none)
  | .resultEvent _ => ({ s with isInputPhase := false }, none)
  | .timeoutEvent => ({ s with isInputPhase := false }, none)
  | .roundResult => ({ s with isInputPhase := false }, none)
  | .gameFinished =>
    ({ s with isShowingSequence := false,
              isGameActive := false,
              isInputPhase := false }, none)
  | .addColor c =>
    let newPlayerSequence := s.playerSequence ++ [c]
    ({ s with playerSequence := newPlayerSequence,
              canSubmit := newPlayerSequence.length = s.currentSequence.length },
      none)
  | .submit =>
    if ¬ s.canSubmit then (s, none)
    else ({ s with isInputPhase := false }, some s.playerSequence)
  | .clearSequence => ({ s with playerSequence := [], canSubmit := false }, none)
  | .resetGame => (initialSimonStore, none)

/-- Run a list of events through the store, collecting every emitted
submission in order. -/
def simonRun (s : SimonStore) : List ClientEvent →
    SimonStore × List (List Color)
  | [] => (s, [])
  | e :: es =>
    let r := simonStep s e
    let r' := simonRun r.1 es
    (r'.1, (r.2.toList) ++ r'.2)

/-- The length-match condition the claim relies on: whenever `canSubmit` is
set, the entered sequence has the current target's length. -/
def SubmitLengthInv (s : SimonStore) : Prop :=
  s.canSubmit = true → s.playerSequence.length = s.currentSequence.length

/-- The event trace refuting C10 as stated: the player completes round 1's
single-color sequence (the submit button is now rendered and enabled), a
show-sequence broadcast for round 2 arrives before they press submit, and
the press then emits a length-1 submission against the length-2 target. -/
def c10Trace : List ClientEvent :=
  [.showSequence 1 [Color.red], .inputPhase, .addColor Color.red,
    .showSequence 2 [Color.red, Color.blue], .submit]

/- ===========================================================================
   THEOREMS: C10
   =========================================================================== -/

/-- C10 counterexample: on the trace `c10Trace` the client emits the
submission [red] (the UI path was open: before the press, isInputPhase and
canSubmit were both true) while the currently shown target sequence is
[red, blue] — a wrong-length submission sent through the UI. -/
theorem client_submit_wrong_length_counterexample :
    (simonRun initialSimonStore c10Trace).2 = [[Color.red]] ∧
    (simonRun initialSimonStore c10Trace).1.currentSequence =
      [Color.red, Color.blue] ∧
    (simonRun initialSimonStore (c10Trace.take 4)).1.isInputPhase = true ∧
    (simonRun initialSimonStore (c10Trace.take 4)).1.canSubmit = true ∧
    ¬ ((1 : Nat) = [Color.red, Color.blue].length) := by
  decide

/-- C10 amended: `submitSequence` is a no-op that emits nothing when
`canSubmit` is false; `addColorToSequence` sets `canSubmit` exactly when
the entered length equals the current target's length; every client event
other than a show-sequence update preserves the length-match condition; and
any submission emitted from a state satisfying it has exactly the target
sequence's length.  (A show-sequence broadcast arriving between the last
added color and the press can break the match — the counterexample above —
so the conclusion holds whenever the target is unchanged since `canSubmit`
was last set.) -/
theorem client_submit_length_guarded :
    (∀ s, s.canSubmit = false → simonStep s .submit = (s, none)) ∧
    (∀ s c, (simonStep s (.addColor c)).1.canSubmit = true ↔
      (simonStep s (.addColor c)).1.playerSequence.length =
        (simonStep s (.addColor c)).1.currentSequence.length) ∧
    (∀ s e, (∀ r seq, e ≠ .showSequence r seq) → SubmitLengthInv s →
      SubmitLengthInv (simonStep s e).1) ∧
    (∀ s sub, SubmitLengthInv s → (simonStep s .submit).2 = some sub →
      sub.length = s.currentSequence.length) := by
  refine ⟨?_, ?_, ?_, ?_⟩
  · intro s h
    simp [simonStep, h]
  · intro s c
    simp [simonStep]
  · intro s e he hinv
    cases e with
    | showSequence r seq => exact absurd rfl (he r seq)
    | sequenceComplete => exact hinv
    | inputPhase => intro h; simp [simonStep] at h
    | resultEvent b => exact hinv
    | timeoutEvent => exact hinv
    | roundResult => exact hinv
    | gameFinished => exact hinv
    | addColor c =>
      intro h
      simpa [simonStep] using (by simpa [simonStep] using h :
        (s.playerSequence ++ [c]).length = s.currentSequence.length)
    | submit =>
      by_cases hc : s.canSubmit = true
      · intro h
        simp only [simonStep, hc, not_true, if_neg, ite_false] at h ⊢
        exact hinv hc
      · have hc' : s.canSubmit = false := by simpa using hc
        simpa [simonStep, hc'] using hinv
    | clearSequence => intro h; simp [simonStep] at h
    | resetGame => intro h; simp [simonStep, initialSimonStore] at h
  · intro s sub hinv hsub
    by_cases hc : s.canSubmit = true
    · simp only [simonStep, hc, not_true, if_neg, ite_false,
        Option.some_inj] at hsub
      rw [← hsub]
      exact hinv hc
    · have hc' : s.canSubmit = false := by simpa using hc
      simp [simonStep, hc'] at hsub

/-- C10 amended witness: a concrete state satisfying the length-match
condition emits its entered sequence on submit, and that submission's
length equals the target's length. -/
theorem client_submit_length_guarded_witness :
    SubmitLengthInv
      ⟨false, [Color.red], 1, true, [Color.red], true, true⟩ ∧
    (simonStep ⟨false, [Color.red], 1, true, [Color.red], true, true⟩
      .submit).2 = some [Color.red] ∧
    ([Color.red] : List Color).length =
      (⟨false, [Color.red], 1, true, [Color.red], true, true⟩ :
        SimonStore).currentSequence.length :=
  ⟨fun _ => rfl, rfl,
    client_submit_length_guarded.2.2.2
      ⟨false, [Color.red], 1, true, [Color.red], true, true⟩
      [Color.red] (fun _ => rfl) rfl⟩

end Simon
